import Mathlib

/-!
Shallow embedding of the REcipe backend aggregation and fallback core
(src/backend/api.py): the Gemini rate limiter, the remote vision and OCR
fallback chains, the classifier top-k adapter, the recognize-food
aggregation, and the OCR endpoint control flow.

Conventions of the embedding:
* Python floats (timestamps and confidences) are modelled as rationals;
  the core logic only compares, maxes and averages them.
* Fallible steps (model calls, remote calls, JSON parsing) are modelled by
  an environment record that says, for each external collaborator, what it
  would return, with none standing for a raised exception, a transport
  failure or a missing credential, exactly as the corresponding try-except
  or status-code check in the source collapses them.
* JSON values are modelled by an inductive type; an object stands for a
  Python dict produced by json.loads, so its keys are unique and in
  insertion order.
* The chain functions additionally report whether the OpenAI fallback was
  consulted; erasing that flag (and the returned rate window) gives the
  return value of the Python function.
* The post-processing step augment_prediction of call_gemini_vision
  rewrites each prediction element in place and never fails (its whole
  body is wrapped in try-except returning the element unchanged); none of
  the verified properties depend on it, so it is passed in as a parameter
  of the chain, quantified universally in every theorem.
-/

namespace REcipe

/-- Timestamps (seconds, as returned by time.time) are modelled as rationals. -/
abbrev Time := ℚ

/-- Prediction record produced by topk_from_probs: a dict with a name and a
confidence. -/
structure Pred where
  name : String
  confidence : ℚ
deriving Repr, DecidableEq

/-- JSON values, as produced by json.loads. An obj stands for a Python dict:
keys unique, insertion ordered. -/
inductive Json where
  | null
  | bool (b : Bool)
  | num (q : ℚ)
  | str (s : String)
  | arr (elems : List Json)
  | obj (fields : List (String × Json))

/-- Lookup of a key in a JSON object, as Python dict access. -/
def jLookup (fields : List (String × Json)) (key : String) : Option Json :=
  match fields.find? (fun kv => kv.1 == key) with
  | some kv => some kv.2
  | none => none

/-- Measurement helper: does a parsed JSON value carry a top-level
"predictions" key? (Only objects can.) -/
def hasPredictionsKey : Json → Bool
  | .obj fields => (jLookup fields "predictions").isSome
  | _ => false

/-- Result of an endpoint handler: either a JSON body or an HTTPException
with a status code and detail string. -/
inductive ApiResult (α : Type) where
  | ok (value : α)
  | httpError (status : ℕ) (detail : String)

/-- Boolean test for the 2xx case of an ApiResult. -/
def ApiResult.isOk {α : Type} : ApiResult α → Bool
  | .ok _ => true
  | .httpError _ _ => false

/-! ## Rate limiter (api.py lines 140-161) -/

/-- GEMINI_RPM_LIMIT = 10, the client-side requests-per-minute cap. -/
def GEMINI_RPM_LIMIT : ℕ := 10

/-- The pruning step of check_gemini_rate_limit: keep only the timestamps t
with now - t < 60. -/
def pruneTimestamps (ts : List Time) (now : Time) : List Time :=
  ts.filter (fun t => decide (now - t < 60))

/-- check_gemini_rate_limit: prune the window, deny (recording nothing) when
the pruned window has reached the limit, otherwise append the current
timestamp and allow the call. Returns the new window and the verdict. -/
def check_gemini_rate_limit (ts : List Time) (now : Time) (limit : ℕ) :
    List Time × Bool :=
  if limit ≤ (pruneTimestamps ts now).length then (pruneTimestamps ts now, false)
  else (pruneTimestamps ts now ++ [now], true)

/-! ## Remote providers (api.py lines 163-403 and 612-731) -/

/-- Environment describing the remote collaborators for one request: which
credentials are configured and what each remote call would yield. A none
reply stands for a raised exception, a non-200 status or unparseable JSON,
exactly the conditions the source catches. -/
structure RemoteEnv where
  openaiKey : Bool
  geminiConfigured : Bool
  geminiVisionReply : Option Json
  openaiVisionReply : Option Json
  geminiOcrReply : Option String
  openaiOcrReply : Option String

/-- Python str.strip() - drop leading and trailing whitespace - written over
the character list so that it is structurally computable. -/
def pyStrip (s : String) : String :=
  String.mk (((s.toList.dropWhile Char.isWhitespace).reverse.dropWhile
    Char.isWhitespace).reverse)

/-- First list-valued field of a JSON object, as the for-loop over
parsed.values() in call_gemini_vision. -/
def firstListValue : List (String × Json) → List Json
  | [] => []
  | (_, Json.arr v) :: _ => v
  | _ :: rest => firstListValue rest

/-- Normalization of a parsed Gemini vision response to a list of
predictions (api.py lines 229-239): an object with a list-valued
"predictions" key yields that list; otherwise a top-level array yields
itself; otherwise an object yields its first list-valued field; anything
else yields the empty list. -/
def extractPreds (parsed : Json) : List Json :=
  match parsed with
  | .obj fields =>
    match jLookup fields "predictions" with
    | some (.arr ps) => ps
    | _ => firstListValue fields
  | .arr ps => ps
  | _ => []

/-- call_openai_vision: skip (None) without a key; on a non-200 status or
any exception (including JSON parse failure of the content) return None;
otherwise return data.get("predictions", []) - note a non-object body makes
data.get raise, which the except turns into None, while an object missing
the key yields the empty-list default and an object with a non-list value
under the key yields that raw value. -/
def call_openai_vision (env : RemoteEnv) : Option Json :=
  if env.openaiKey = false then none
  else
    match env.openaiVisionReply with
    | none => none
    | some data =>
      match data with
      | .obj fields =>
        match jLookup fields "predictions" with
        | some v => some v
        | none => some (Json.arr [])
      | _ => none

/-- Outcome of the vision fallback chain: the updated rate window, the value
returned to the caller, and whether the OpenAI fallback was consulted. -/
structure ChainOut where
  window : List Time
  result : Option Json
  openaiCalled : Bool

/-- call_gemini_vision (api.py lines 163-300): run the admission check; on denial, on gemini_model being None, or on any exception from the
call or from json.loads, fall back to call_openai_vision; on success return
the normalized predictions, each rewritten by augment_prediction. -/
def call_gemini_vision (augment : Json → Json) (env : RemoteEnv)
    (ts : List Time) (now : Time) : ChainOut :=
  if (check_gemini_rate_limit ts now GEMINI_RPM_LIMIT).2 = false then
    { window := (check_gemini_rate_limit ts now GEMINI_RPM_LIMIT).1,
      result := call_openai_vision env, openaiCalled := true }
  else if env.geminiConfigured = false then
    { window := (check_gemini_rate_limit ts now GEMINI_RPM_LIMIT).1,
      result := call_openai_vision env, openaiCalled := true }
  else
    match env.geminiVisionReply with
    | none =>
      { window := (check_gemini_rate_limit ts now GEMINI_RPM_LIMIT).1,
        result := call_openai_vision env, openaiCalled := true }
    | some parsed =>
      { window := (check_gemini_rate_limit ts now GEMINI_RPM_LIMIT).1,
        result := some (Json.arr ((extractPreds parsed).map augment)),
        openaiCalled := false }

/-- call_openai_ocr: skip (None) without a key; None on a non-200 status or
exception; otherwise the stripped message content. -/
def call_openai_ocr (env : RemoteEnv) : Option String :=
  if env.openaiKey = false then none
  else
    match env.openaiOcrReply with
    | none => none
    | some content => some (pyStrip content)

/-- Outcome of the OCR fallback chain. -/
structure OcrChainOut where
  window : List Time
  result : Option String
  openaiCalled : Bool

/-- call_gemini_ocr (api.py lines 612-665): run the same admission check; on denial, on gemini_model being None, or on any exception fall
back to call_openai_ocr; on success return the stripped response text. -/
def call_gemini_ocr (env : RemoteEnv) (ts : List Time) (now : Time) :
    OcrChainOut :=
  if (check_gemini_rate_limit ts now GEMINI_RPM_LIMIT).2 = false then
    { window := (check_gemini_rate_limit ts now GEMINI_RPM_LIMIT).1,
      result := call_openai_ocr env, openaiCalled := true }
  else if env.geminiConfigured = false then
    { window := (check_gemini_rate_limit ts now GEMINI_RPM_LIMIT).1,
      result := call_openai_ocr env, openaiCalled := true }
  else
    match env.geminiOcrReply with
    | none =>
      { window := (check_gemini_rate_limit ts now GEMINI_RPM_LIMIT).1,
        result := call_openai_ocr env, openaiCalled := true }
    | some t =>
      { window := (check_gemini_rate_limit ts now GEMINI_RPM_LIMIT).1,
        result := some (pyStrip t), openaiCalled := false }

/-! ## Local model adapters (api.py lines 121-138 and 420-483) -/

/-- Raw output of one classification model call, as probed by
topk_from_probs: no results at all, a result without a probs attribute, a
probability vector with its class-name table, or an exception raised while
extracting. -/
inductive ModelRes where
  | empty
  | noProbs
  | probs (ps : List ℚ) (names : List String)
  | raises

/-- The probs.argsort step of topk_from_probs: the probabilities paired with
their indices, sorted ascending by probability. -/
def argsortAsc (ps : List ℚ) : List (ℕ × ℚ) :=
  ps.enum.mergeSort (fun a b => decide (a.2 ≤ b.2))

/-- topk_from_probs: empty list when there are no results, no probs
attribute, or any exception (including a class index missing from the name
table); otherwise the probabilities paired with their indices, sorted
ascending, last k taken and reversed - the argsort top-k - and turned into
name-confidence records. -/
def topk_from_probs (res : ModelRes) (k : ℕ) : List Pred :=
  match res with
  | .empty => []
  | .noProbs => []
  | .raises => []
  | .probs ps names =>
    if names.length < ps.length then []
    else
      ((argsortAsc ps).drop ((argsortAsc ps).length - k)).reverse.map
        (fun ip => { name := names.getD ip.1 "", confidence := ip.2 })

/-- One classifier step of recognize_food: the model invocation itself may
raise (none), which the surrounding try-except turns into an empty
prediction list; otherwise top-5 extraction runs. -/
def classifierPreds (res : Option ModelRes) : List Pred :=
  match res with
  | none => []
  | some r => topk_from_probs r 5

/-- One raw detection box of a YOLO result: corner coordinates (already
truncated to int as in the source), a confidence and a class index. -/
structure Box where
  x1 : Int
  y1 : Int
  x2 : Int
  y2 : Int
  conf : ℚ
  cls : ℕ

/-- Detection record of the recognize-food response. -/
structure Detection where
  bbox : Int × Int × Int × Int
  confidence : ℚ
  className : String
deriving Repr, DecidableEq

/-- Ingredient record of the recognize-food response. -/
structure IngredientDet where
  name : String
  confidence : ℚ
  bbox : Int × Int × Int × Int
deriving Repr, DecidableEq

/-- Detection step of recognize_food (lines 420-440): on an exception from
the model call the list is reset to empty; a class index missing from the
name table raises mid-loop, which the except also turns into the empty
list; otherwise one record per box, in the model output order, untruncated. -/
def runDetector (out : Option (List Box × List String)) : List Detection :=
  match out with
  | none => []
  | some bn =>
    if bn.1.all (fun b => b.cls < bn.2.length) then
      bn.1.map (fun b =>
        { bbox := (b.x1, b.y1, b.x2, b.y2), confidence := b.conf,
          className := bn.2.getD b.cls "" })
    else []

/-- Ingredient detection step of recognize_food (lines 460-483): same shape
as the detector step, with name-first records. -/
def runIngredients (out : Option (List Box × List String)) : List IngredientDet :=
  match out with
  | none => []
  | some bn =>
    if bn.1.all (fun b => b.cls < bn.2.length) then
      bn.1.map (fun b =>
        { name := bn.2.getD b.cls "", confidence := b.conf,
          bbox := (b.x1, b.y1, b.x2, b.y2) })
    else []

/-! ## recognize-food aggregation (api.py lines 405-520) -/

/-- Environment for one recognize-food request: validity of the uploaded
image and the outputs of the four local models, with none standing for a
raised exception. -/
structure RecogEnv where
  imageValid : Bool
  det : Option (List Box × List String)
  food101 : Option ModelRes
  filipino : Option ModelRes
  ingredients : Option (List Box × List String)
  remote : RemoteEnv

/-- The hybrid-logic confidence signal (lines 486-494): start from 0.0, max
in the Filipino top-1 confidence if that list is nonempty, then the Food101
top-1 confidence if that list is nonempty. -/
def best_local_confidence (food101_predictions filipino_predictions : List Pred) : ℚ :=
  match food101_predictions, filipino_predictions with
  | [], [] => 0
  | [], q :: _ => max 0 q.confidence
  | p :: _, [] => max 0 p.confidence
  | p :: _, q :: _ => max (max 0 q.confidence) p.confidence

/-- The escalation threshold hardcoded in the source (line 500: max_conf < 1.0). -/
def THRESHOLD : ℚ := 1

/-- The formula of the specification for the escalation signal: the maximum
of the top-1 confidences of the two classifier lists, defaulting to 0.0
when both lists are empty. Stated from the words of the spec, to be
compared with best_local_confidence. -/
def specBestLocal (food101_predictions filipino_predictions : List Pred) : ℚ :=
  match (food101_predictions.head?.map Pred.confidence).toList
      ++ (filipino_predictions.head?.map Pred.confidence).toList with
  | [] => 0
  | x :: xs => xs.foldl max x

/-- JSON body of a recognize-food success response. -/
structure RecognizeResponse where
  success : Bool
  detections : List Detection
  food101_predictions : List Pred
  filipino_predictions : List Pred
  ingredient_predictions : List IngredientDet
  gemini_prediction : Option Json
  detection_count : ℕ

/-- Instrumented outcome of one recognize-food request: the new rate window,
the HTTP response, and whether the fallback chain and the OpenAI fallback
were invoked. -/
structure RecogOut where
  window : List Time
  response : ApiResult RecognizeResponse
  fallbackInvoked : Bool
  openaiCalled : Bool

/-- recognize_food: reject an unreadable image with a 400; otherwise run the
four local adapters (each failure-isolated), compute the confidence signal
from the two classifier lists only, call the fallback chain exactly when it
is strictly below the threshold, and assemble the success response with the
chain result (or null) attached. -/
def recognize_food (augment : Json → Json) (env : RecogEnv)
    (ts : List Time) (now : Time) : RecogOut :=
  if env.imageValid = false then
    { window := ts, response := .httpError 400 "Invalid image file",
      fallbackInvoked := false, openaiCalled := false }
  else
    if best_local_confidence (classifierPreds env.food101) (classifierPreds env.filipino)
        < THRESHOLD then
      { window := (call_gemini_vision augment env.remote ts now).window,
        response := .ok
          { success := true, detections := runDetector env.det,
            food101_predictions := classifierPreds env.food101,
            filipino_predictions := classifierPreds env.filipino,
            ingredient_predictions := runIngredients env.ingredients,
            gemini_prediction := (call_gemini_vision augment env.remote ts now).result,
            detection_count := (runDetector env.det).length },
        fallbackInvoked := true,
        openaiCalled := (call_gemini_vision augment env.remote ts now).openaiCalled }
    else
      { window := ts,
        response := .ok
          { success := true, detections := runDetector env.det,
            food101_predictions := classifierPreds env.food101,
            filipino_predictions := classifierPreds env.filipino,
            ingredient_predictions := runIngredients env.ingredients,
            gemini_prediction := none,
            detection_count := (runDetector env.det).length },
        fallbackInvoked := false, openaiCalled := false }

/-! ## OCR endpoint (api.py lines 529-610) -/

/-- Environment for one OCR request: validity of the image and the raw
Tesseract output - none when pytesseract raised anywhere in its block,
otherwise the extracted text together with the per-token confidence list. -/
structure OcrEnv where
  imageValid : Bool
  tess : Option (String × List Int)
  remote : RemoteEnv

/-- Round-half-to-even of a rational to an integer, as Python round. -/
def roundHalfEven (q : ℚ) : Int :=
  let f := ⌊q⌋
  let r := q - f
  if r < 1 / 2 then f
  else if 1 / 2 < r then f + 1
  else if f % 2 = 0 then f else f + 1

/-- Python round(x, 2). -/
def round2 (q : ℚ) : ℚ := (roundHalfEven (q * 100) : ℚ) / 100

/-- The Tesseract stage of the OCR endpoint (lines 543-566): positive
per-token confidences are averaged (0 when none are positive); the text
counts only when its stripped form is longer than 5 characters, in which
case the stripped text and the rounded average confidence are kept. -/
def tesseractResult (env : OcrEnv) : Option (String × ℚ) :=
  match env.tess with
  | none => none
  | some tc =>
    let confidences := tc.2.filter (fun c => decide (0 < c))
    let avg : ℚ :=
      if confidences.length = 0 then 0
      else ((confidences.sum : Int) : ℚ) / (confidences.length : ℚ)
    if 5 < (pyStrip tc.1).length then some (pyStrip tc.1, round2 avg) else none

/-- JSON body of an OCR success response. -/
structure OcrResponse where
  success : Bool
  text : String
  confidence : ℚ
  source : String

/-- Outcome of one OCR request: the new rate window and the HTTP response. -/
structure OcrOut where
  window : List Time
  response : ApiResult OcrResponse

/-- Final stage of the OCR endpoint: return the Tesseract result when one
was kept, otherwise fail the request with a 500. -/
def ocrTessFinish (w : List Time) (tr : Option (String × ℚ)) : OcrOut :=
  match tr with
  | some tc =>
    { window := w,
      response := .ok { success := true, text := tc.1, confidence := tc.2, source := "tesseract" } }
  | none =>
    { window := w, response := .httpError 500 "All OCR methods failed to extract text" }

/-- Direct OpenAI stage of the OCR endpoint (lines 582-592): a truthy
non-sentinel OpenAI text is returned with the constant confidence 95.0,
otherwise control falls through to the Tesseract result. -/
def ocrOpenaiStage (renv : RemoteEnv) (w : List Time) (tr : Option (String × ℚ)) : OcrOut :=
  match call_openai_ocr renv with
  | some o =>
    if o ≠ "" ∧ o ≠ "No text found" then
      { window := w,
        response := .ok { success := true, text := o, confidence := 95, source := "openai" } }
    else ocrTessFinish w tr
  | none => ocrTessFinish w tr

/-- Condition of line 569 of the source: fall back to the remote OCR chain
when the Tesseract stage kept no text or its confidence is below 60. -/
def ocrNeedFallback (env : OcrEnv) : Bool :=
  match tesseractResult env with
  | none => true
  | some tc => decide (tc.2 < 60)

/-- extract_text_from_image, continued: the branch taken when the Tesseract
stage kept no text or its confidence is below 60. -/
def ocrFallbackStage (env : OcrEnv) (ts : List Time) (now : Time) : OcrOut :=
  match (call_gemini_ocr env.remote ts now).result with
  | some g =>
    if g ≠ "" ∧ g ≠ "No text found" then
      { window := (call_gemini_ocr env.remote ts now).window,
        response := .ok { success := true, text := g, confidence := 95, source := "gemini" } }
    else
      ocrOpenaiStage env.remote (call_gemini_ocr env.remote ts now).window
        (tesseractResult env)
  | none =>
    ocrOpenaiStage env.remote (call_gemini_ocr env.remote ts now).window
      (tesseractResult env)

/-- extract_text_from_image: reject an unreadable image with a 400; when the
Tesseract stage kept no text or its confidence is below 60, try the Gemini
OCR chain - a truthy non-sentinel text is returned with the constant
confidence 95.0, otherwise the direct OpenAI stage runs - and finally fall
back to the Tesseract result or a 500. -/
def extract_text_from_image (env : OcrEnv) (ts : List Time) (now : Time) : OcrOut :=
  if env.imageValid = false then
    { window := ts, response := .httpError 400 "Invalid image file" }
  else
    if ocrNeedFallback env then ocrFallbackStage env ts now
    else ocrTessFinish ts (tesseractResult env)

/-! ## Shared helper lemmas and concrete environments -/

/-- The rate window returned by the vision chain is always exactly the
window produced by the admission check, whatever the providers do. -/
theorem call_gemini_vision_window (augment : Json → Json) (env : RemoteEnv)
    (ts : List Time) (now : Time) :
    (call_gemini_vision augment env ts now).window
      = (check_gemini_rate_limit ts now GEMINI_RPM_LIMIT).1 := by
  unfold call_gemini_vision
  repeat' split <;> try rfl

/-- The rate window returned by the OCR chain is always exactly the window
produced by the admission check, whatever the providers do. -/
theorem call_gemini_ocr_window (env : RemoteEnv) (ts : List Time) (now : Time) :
    (call_gemini_ocr env ts now).window
      = (check_gemini_rate_limit ts now GEMINI_RPM_LIMIT).1 := by
  unfold call_gemini_ocr
  repeat' split <;> try rfl

/-- Remote environment with no credentials and every remote call failing. -/
def remoteAllDown : RemoteEnv :=
  { openaiKey := false, geminiConfigured := false, geminiVisionReply := none,
    openaiVisionReply := none, geminiOcrReply := none, openaiOcrReply := none }

/-- Ten admission timestamps spread inside one minute, a full default window. -/
def windowTenTimestamps : List Time := [0, 6, 12, 18, 24, 30, 36, 42, 48, 54]

/-! ## C2: rate limiter admission behaviour -/

/-- C2: on each admission check, stale timestamps are pruned first; a pruned
window at or above the limit is denied with nothing recorded, otherwise the
current timestamp is appended and the call is allowed. Consequently a
window of exactly limit admissions all within the last 60 seconds denies
the next attempt, and once at least 60 seconds have passed since the
earliest admitted timestamp an admission succeeds again. -/
theorem C2_rate_limiter_behavior (ts : List Time) (now t0 : Time) (limit : ℕ) :
    GEMINI_RPM_LIMIT = 10
    ∧ (limit ≤ (pruneTimestamps ts now).length →
        check_gemini_rate_limit ts now limit = (pruneTimestamps ts now, false))
    ∧ ((pruneTimestamps ts now).length < limit →
        check_gemini_rate_limit ts now limit = (pruneTimestamps ts now ++ [now], true))
    ∧ (ts.length = limit → (∀ t ∈ ts, now - t < 60) →
        (check_gemini_rate_limit ts now limit).2 = false)
    ∧ (ts.length = limit → t0 ∈ ts → (∀ t ∈ ts, t0 ≤ t) → 60 ≤ now - t0 →
        (check_gemini_rate_limit ts now limit).2 = true) := by
  refine ⟨rfl, ?_, ?_, ?_, ?_⟩
  · intro h
    unfold check_gemini_rate_limit
    rw [if_pos h]
  · intro h
    unfold check_gemini_rate_limit
    rw [if_neg (by omega)]
  · intro hlen hall
    have hprune : pruneTimestamps ts now = ts :=
      List.filter_eq_self.mpr (fun t ht => decide_eq_true (hall t ht))
    unfold check_gemini_rate_limit
    rw [hprune, if_pos (by omega)]
  · intro hlen ht0 hmin h60
    have hlt : (pruneTimestamps ts now).length < ts.length := by
      apply List.length_filter_lt_length_iff_exists.mpr
      exact ⟨t0, ht0, by simp only [decide_eq_true_eq, not_lt]; linarith⟩
    unfold check_gemini_rate_limit
    rw [if_neg (by omega)]

/-- Witness for C2: the default limit with a full one-minute window. -/
theorem C2_rate_limiter_behavior_witness :
    GEMINI_RPM_LIMIT = 10
    ∧ (10 ≤ (pruneTimestamps windowTenTimestamps 59).length →
        check_gemini_rate_limit windowTenTimestamps 59 10
          = (pruneTimestamps windowTenTimestamps 59, false))
    ∧ ((pruneTimestamps windowTenTimestamps 59).length < 10 →
        check_gemini_rate_limit windowTenTimestamps 59 10
          = (pruneTimestamps windowTenTimestamps 59 ++ [59], true))
    ∧ (windowTenTimestamps.length = 10 → (∀ t ∈ windowTenTimestamps, 59 - t < 60) →
        (check_gemini_rate_limit windowTenTimestamps 59 10).2 = false)
    ∧ (windowTenTimestamps.length = 10 → (0:ℚ) ∈ windowTenTimestamps →
        (∀ t ∈ windowTenTimestamps, 0 ≤ t) → 60 ≤ 59 - (0:ℚ) →
        (check_gemini_rate_limit windowTenTimestamps 59 10).2 = true) :=
  C2_rate_limiter_behavior windowTenTimestamps 59 0 10

/-! ## C3: rate window invariants -/

/-- C3: after the pruning step every retained timestamp is younger than 60
seconds, and a successful admission never leaves the window larger than the
configured limit. -/
theorem C3_rate_window_invariant (ts : List Time) (now : Time) (limit : ℕ) :
    (∀ t ∈ pruneTimestamps ts now, now - t < 60)
    ∧ ((check_gemini_rate_limit ts now limit).2 = true →
        (check_gemini_rate_limit ts now limit).1.length ≤ limit) := by
  constructor
  · intro t ht
    have hp := List.of_mem_filter ht
    simpa using hp
  · intro h
    unfold check_gemini_rate_limit at h ⊢
    by_cases hc : limit ≤ (pruneTimestamps ts now).length
    · rw [if_pos hc] at h
      exact absurd h (by simp)
    · rw [if_neg hc]
      simp only [List.length_append, List.length_singleton]
      omega

/-- Witness for C3 on a concrete window. -/
theorem C3_rate_window_invariant_witness :
    (∀ t ∈ pruneTimestamps [] 0, (0:ℚ) - t < 60)
    ∧ ((check_gemini_rate_limit [] 0 10).2 = true →
        (check_gemini_rate_limit [] 0 10).1.length ≤ 10) :=
  C3_rate_window_invariant [] 0 10

/-! ## C9: quota slot consumed before the provider checks -/

/-- C9: in both primary-provider call paths the admission check runs first
and, when under the limit, records the current timestamp in the shared
window before the configuration check and the remote call - so an
under-limit invocation consumes a quota slot even when the primary provider
is unconfigured or its call fails, for every remote environment. -/
theorem C9_admission_precedes_provider_checks (augment : Json → Json)
    (env : RemoteEnv) (ts : List Time) (now : Time)
    (hunder : (pruneTimestamps ts now).length < GEMINI_RPM_LIMIT) :
    (call_gemini_vision augment env ts now).window = pruneTimestamps ts now ++ [now]
    ∧ (call_gemini_ocr env ts now).window = pruneTimestamps ts now ++ [now]
    ∧ now ∈ (call_gemini_vision augment env ts now).window
    ∧ now ∈ (call_gemini_ocr env ts now).window := by
  have hcheck : check_gemini_rate_limit ts now GEMINI_RPM_LIMIT
      = (pruneTimestamps ts now ++ [now], true) := by
    unfold check_gemini_rate_limit
    rw [if_neg (by omega)]
  have h1 := call_gemini_vision_window augment env ts now
  have h2 := call_gemini_ocr_window env ts now
  rw [hcheck] at h1 h2
  refine ⟨h1, h2, ?_, ?_⟩
  · rw [h1]; simp
  · rw [h2]; simp

/-- Witness for C9: a fresh window, no credentials, every provider down. -/
theorem C9_admission_precedes_provider_checks_witness :
    (pruneTimestamps [] 0).length < GEMINI_RPM_LIMIT
    ∧ ((call_gemini_vision id remoteAllDown [] 0).window = pruneTimestamps [] 0 ++ [0]
    ∧ (call_gemini_ocr remoteAllDown [] 0).window = pruneTimestamps [] 0 ++ [0]
    ∧ (0:ℚ) ∈ (call_gemini_vision id remoteAllDown [] 0).window
    ∧ (0:ℚ) ∈ (call_gemini_ocr remoteAllDown [] 0).window) :=
  ⟨by decide, C9_admission_precedes_provider_checks id remoteAllDown [] 0 (by decide)⟩

/-! ## Helper lemmas on the adapters and the aggregation -/

/-- The argsort step is ascending in the probability component. -/
theorem argsortAsc_pairwise (ps : List ℚ) :
    List.Pairwise (fun a b : ℕ × ℚ => a.2 ≤ b.2) (argsortAsc ps) := by
  have htr : ∀ a b c : ℕ × ℚ, decide (a.2 ≤ b.2) = true → decide (b.2 ≤ c.2) = true →
      decide (a.2 ≤ c.2) = true := by
    intro a b c hab hbc
    simp only [decide_eq_true_eq] at hab hbc ⊢
    exact le_trans hab hbc
  have hto : ∀ a b : ℕ × ℚ, (decide (a.2 ≤ b.2) || decide (b.2 ≤ a.2)) = true := by
    intro a b
    simp only [Bool.or_eq_true, decide_eq_true_eq]
    exact le_total a.2 b.2
  have h := List.sorted_mergeSort htr hto ps.enum
  exact h.imp (fun hab => of_decide_eq_true hab)

/-- Output of topk_from_probs is sorted by descending confidence. -/
theorem topk_from_probs_sorted (res : ModelRes) (k : ℕ) :
    List.Pairwise (fun a b : Pred => b.confidence ≤ a.confidence)
      (topk_from_probs res k) := by
  unfold topk_from_probs
  split
  any_goals exact List.Pairwise.nil
  split
  · exact List.Pairwise.nil
  · rw [List.pairwise_map, List.pairwise_reverse]
    exact List.Pairwise.sublist (List.drop_sublist _ _) (argsortAsc_pairwise _)

/-- Output of topk_from_probs never exceeds k entries. -/
theorem topk_from_probs_length_le (res : ModelRes) (k : ℕ) :
    (topk_from_probs res k).length ≤ k := by
  unfold topk_from_probs
  split
  any_goals simp
  split
  · simp
  · simp only [List.length_map, List.length_reverse, List.length_drop]
    omega

/-- Each classifier list of recognize_food is sorted by descending confidence. -/
theorem classifierPreds_sorted (res : Option ModelRes) :
    List.Pairwise (fun a b : Pred => b.confidence ≤ a.confidence) (classifierPreds res) := by
  cases res with
  | none => exact List.Pairwise.nil
  | some r => exact topk_from_probs_sorted r 5

/-- Each classifier list of recognize_food has at most 5 entries. -/
theorem classifierPreds_length_le (res : Option ModelRes) :
    (classifierPreds res).length ≤ 5 := by
  cases res with
  | none => exact Nat.zero_le 5
  | some r => exact topk_from_probs_length_le r 5

/-- For a readable image the recognize-food response is always a success
body carrying the four local lists verbatim, with some remote field. -/
theorem recognize_food_ok_shape (augment : Json → Json) (env : RecogEnv)
    (ts : List Time) (now : Time) (hvalid : env.imageValid = true) :
    ∃ g, (recognize_food augment env ts now).response = .ok
      { success := true, detections := runDetector env.det,
        food101_predictions := classifierPreds env.food101,
        filipino_predictions := classifierPreds env.filipino,
        ingredient_predictions := runIngredients env.ingredients,
        gemini_prediction := g,
        detection_count := (runDetector env.det).length } := by
  unfold recognize_food
  rw [if_neg (by simp [hvalid])]
  by_cases h : best_local_confidence (classifierPreds env.food101)
      (classifierPreds env.filipino) < THRESHOLD
  · rw [if_pos h]
    exact ⟨_, rfl⟩
  · rw [if_neg h]
    exact ⟨_, rfl⟩

/-- The hybrid-logic signal of the source equals the max-of-top1s formula of
the specification as soon as confidences are nonnegative. -/
theorem best_local_eq_spec (f g : List Pred)
    (hf : ∀ p ∈ f, 0 ≤ p.confidence) (hg : ∀ p ∈ g, 0 ≤ p.confidence) :
    best_local_confidence f g = specBestLocal f g := by
  cases f with
  | nil =>
    cases g with
    | nil => rfl
    | cons q gs =>
      have h0 : 0 ≤ q.confidence := hg q (by simp)
      show max 0 q.confidence = q.confidence
      exact max_eq_right h0
  | cons p fs =>
    cases g with
    | nil =>
      have h0 : 0 ≤ p.confidence := hf p (by simp)
      show max 0 p.confidence = p.confidence
      exact max_eq_right h0
    | cons q gs =>
      have h0 : 0 ≤ q.confidence := hg q (by simp)
      show max (max 0 q.confidence) p.confidence = max p.confidence q.confidence
      rw [max_eq_right h0, max_comm]

/-- Recognize-food environment in which every local model fails. -/
def envAllLocalFail : RecogEnv :=
  { imageValid := true, det := none, food101 := some ModelRes.raises,
    filipino := some ModelRes.noProbs, ingredients := none, remote := remoteAllDown }

/-! ## C1: the escalation signal and the escalation decision -/

/-- C1: the escalation signal of recognize_food equals the maximum of the
top-1 confidences of the Food101 and Filipino classifier lists (default 0.0
when both are empty); the fallback chain is invoked exactly when this
signal is strictly below the threshold; the decision ignores the detector
and ingredient-detector outputs; and when both classifier top-1 confidences
reach the threshold the chain is never invoked. -/
theorem C1_escalation_signal (augment : Json → Json) (env : RecogEnv)
    (ts : List Time) (now : Time)
    (hvalid : env.imageValid = true)
    (hf : ∀ p ∈ classifierPreds env.food101, 0 ≤ p.confidence)
    (hg : ∀ p ∈ classifierPreds env.filipino, 0 ≤ p.confidence) :
    best_local_confidence (classifierPreds env.food101) (classifierPreds env.filipino)
      = specBestLocal (classifierPreds env.food101) (classifierPreds env.filipino)
    ∧ ((recognize_food augment env ts now).fallbackInvoked = true
        ↔ best_local_confidence (classifierPreds env.food101)
            (classifierPreds env.filipino) < THRESHOLD)
    ∧ (∀ det2 ing2,
        (recognize_food augment { env with det := det2, ingredients := ing2 } ts
            now).fallbackInvoked
          = (recognize_food augment env ts now).fallbackInvoked)
    ∧ (∀ pf pg, (classifierPreds env.food101).head? = some pf →
        (classifierPreds env.filipino).head? = some pg →
        THRESHOLD ≤ pf.confidence → THRESHOLD ≤ pg.confidence →
        (recognize_food augment env ts now).fallbackInvoked = false) := by
  have hiff : (recognize_food augment env ts now).fallbackInvoked = true
      ↔ best_local_confidence (classifierPreds env.food101)
          (classifierPreds env.filipino) < THRESHOLD := by
    unfold recognize_food
    rw [if_neg (by simp [hvalid])]
    by_cases h : best_local_confidence (classifierPreds env.food101)
        (classifierPreds env.filipino) < THRESHOLD
    · rw [if_pos h]
      simp [h]
    · rw [if_neg h]
      simp [h]
  refine ⟨best_local_eq_spec _ _ hf hg, hiff, ?_, ?_⟩
  · intro det2 ing2
    by_cases h : best_local_confidence (classifierPreds env.food101)
        (classifierPreds env.filipino) < THRESHOLD
    · simp [recognize_food, hvalid, h]
    · simp [recognize_food, hvalid, h]
  · intro pf pg hpf hpg h1 h2
    have hbest : THRESHOLD ≤ best_local_confidence (classifierPreds env.food101)
        (classifierPreds env.filipino) := by
      cases hcf : classifierPreds env.food101 with
      | nil => rw [hcf] at hpf; exact absurd hpf (by simp)
      | cons p fs =>
        cases hcg : classifierPreds env.filipino with
        | nil => rw [hcg] at hpg; exact absurd hpg (by simp)
        | cons q gs =>
          rw [hcf] at hpf
          have hp : p = pf := by simpa using hpf
          have hpc : THRESHOLD ≤ p.confidence := by rw [hp]; exact h1
          show THRESHOLD ≤ max (max 0 q.confidence) p.confidence
          exact le_trans hpc (le_max_right _ _)
    have hnot : ¬ best_local_confidence (classifierPreds env.food101)
        (classifierPreds env.filipino) < THRESHOLD := not_lt.mpr hbest
    cases hfb : (recognize_food augment env ts now).fallbackInvoked with
    | false => rfl
    | true => exact absurd (hiff.mp hfb) hnot

/-- Witness for C1: a valid image whose classifiers all fail, so the signal
defaults to 0 and escalation occurs. -/
theorem C1_escalation_signal_witness :
    envAllLocalFail.imageValid = true
    ∧ (∀ p ∈ classifierPreds envAllLocalFail.food101, 0 ≤ p.confidence)
    ∧ (∀ p ∈ classifierPreds envAllLocalFail.filipino, 0 ≤ p.confidence)
    ∧ (best_local_confidence (classifierPreds envAllLocalFail.food101)
          (classifierPreds envAllLocalFail.filipino)
        = specBestLocal (classifierPreds envAllLocalFail.food101)
            (classifierPreds envAllLocalFail.filipino)
    ∧ ((recognize_food id envAllLocalFail [] 0).fallbackInvoked = true
        ↔ best_local_confidence (classifierPreds envAllLocalFail.food101)
            (classifierPreds envAllLocalFail.filipino) < THRESHOLD)
    ∧ (∀ det2 ing2,
        (recognize_food id { envAllLocalFail with det := det2, ingredients := ing2 } []
            0).fallbackInvoked
          = (recognize_food id envAllLocalFail [] 0).fallbackInvoked)
    ∧ (∀ pf pg, (classifierPreds envAllLocalFail.food101).head? = some pf →
        (classifierPreds envAllLocalFail.filipino).head? = some pg →
        THRESHOLD ≤ pf.confidence → THRESHOLD ≤ pg.confidence →
        (recognize_food id envAllLocalFail [] 0).fallbackInvoked = false)) :=
  ⟨rfl, by decide, by decide,
    C1_escalation_signal id envAllLocalFail [] 0 rfl (by decide) (by decide)⟩

/-! ## C6: ordering and truncation of the response lists -/

/-- Projection of the detection list out of a recognize-food response. -/
def okDetections : ApiResult RecognizeResponse → List Detection
  | .ok r => r.detections
  | .httpError _ _ => []

/-- Recognize-food environment whose detector reports two boxes in
ascending-confidence order, the order the YOLO contract permits. -/
def envC6unsorted : RecogEnv :=
  { imageValid := true,
    det := some ([{ x1 := 0, y1 := 0, x2 := 1, y2 := 1, conf := mkRat 1 10, cls := 0 },
                  { x1 := 0, y1 := 0, x2 := 1, y2 := 1, conf := mkRat 9 10, cls := 0 }],
                 ["food"]),
    food101 := none, filipino := none, ingredients := none, remote := remoteAllDown }

/-- C6 counterexample: the detection list of a successful recognize-food
response reproduces the detector output order, so it is not sorted by
descending confidence (and it is not truncated either). -/
theorem C6_detections_unsorted_counterexample :
    (recognize_food id envC6unsorted [] 0).response.isOk = true
    ∧ (okDetections (recognize_food id envC6unsorted [] 0).response).map
        Detection.confidence = [mkRat 1 10, mkRat 9 10]
    ∧ ¬ List.Pairwise (fun a b : ℚ => b ≤ a) [mkRat 1 10, mkRat 9 10] :=
  ⟨rfl, rfl, by decide⟩

/-- C6 (amended): in every successful recognize-food response the two
classification lists are each sorted by descending confidence and truncated
to k = 5, while the detection and ingredient lists reproduce the
corresponding model outputs in model order, without sorting or truncation. -/
theorem C6_classification_lists_sorted_topk (augment : Json → Json) (env : RecogEnv)
    (ts : List Time) (now : Time) (hvalid : env.imageValid = true) :
    ∀ r, (recognize_food augment env ts now).response = .ok r →
      List.Pairwise (fun a b : Pred => b.confidence ≤ a.confidence) r.food101_predictions
      ∧ r.food101_predictions.length ≤ 5
      ∧ List.Pairwise (fun a b : Pred => b.confidence ≤ a.confidence) r.filipino_predictions
      ∧ r.filipino_predictions.length ≤ 5
      ∧ r.detections = runDetector env.det
      ∧ r.ingredient_predictions = runIngredients env.ingredients := by
  intro r hr
  obtain ⟨g, hok⟩ := recognize_food_ok_shape augment env ts now hvalid
  rw [hok] at hr
  injection hr with h
  subst h
  exact ⟨classifierPreds_sorted _, classifierPreds_length_le _,
    classifierPreds_sorted _, classifierPreds_length_le _, rfl, rfl⟩

/-- Witness for the amended C6 on a concrete environment. -/
theorem C6_classification_lists_sorted_topk_witness :
    envAllLocalFail.imageValid = true
    ∧ (∀ r, (recognize_food id envAllLocalFail [] 0).response = .ok r →
      List.Pairwise (fun a b : Pred => b.confidence ≤ a.confidence) r.food101_predictions
      ∧ r.food101_predictions.length ≤ 5
      ∧ List.Pairwise (fun a b : Pred => b.confidence ≤ a.confidence) r.filipino_predictions
      ∧ r.filipino_predictions.length ≤ 5
      ∧ r.detections = runDetector envAllLocalFail.det
      ∧ r.ingredient_predictions = runIngredients envAllLocalFail.ingredients) :=
  ⟨rfl, C6_classification_lists_sorted_topk id envAllLocalFail [] 0 rfl⟩

/-! ## C7: local model failures are absorbed -/

/-- C7: the adapter returns an empty prediction list for every failure mode
of a model - no results, an absent or malformed score structure, or a raised
exception at the call or during extraction - and for every readable image
the pipeline still assembles a success response whatever the local models
did. -/
theorem C7_adapter_failure_isolation (augment : Json → Json) (env : RecogEnv)
    (ts : List Time) (now : Time) (k : ℕ) (hvalid : env.imageValid = true) :
    topk_from_probs ModelRes.empty k = []
    ∧ topk_from_probs ModelRes.noProbs k = []
    ∧ topk_from_probs ModelRes.raises k = []
    ∧ classifierPreds none = []
    ∧ runDetector none = []
    ∧ runIngredients none = []
    ∧ ∃ r, (recognize_food augment env ts now).response = .ok r ∧ r.success = true := by
  refine ⟨rfl, rfl, rfl, rfl, rfl, rfl, ?_⟩
  obtain ⟨g, hok⟩ := recognize_food_ok_shape augment env ts now hvalid
  exact ⟨_, hok, rfl⟩

/-- Witness for C7: every local model fails, and the response is still a
success body. -/
theorem C7_adapter_failure_isolation_witness :
    envAllLocalFail.imageValid = true
    ∧ (topk_from_probs ModelRes.empty 5 = []
    ∧ topk_from_probs ModelRes.noProbs 5 = []
    ∧ topk_from_probs ModelRes.raises 5 = []
    ∧ classifierPreds none = []
    ∧ runDetector none = []
    ∧ runIngredients none = []
    ∧ ∃ r, (recognize_food id envAllLocalFail [] 0).response = .ok r ∧ r.success = true) :=
  ⟨rfl, C7_adapter_failure_isolation id envAllLocalFail [] 0 5 rfl⟩

/-! ## C4: fallback chain resolution order and terminal state -/

/-- For a readable image the remote field of the success body is null
whenever the chain result is null (and also when no escalation happened). -/
theorem recognize_food_remote_field (augment : Json → Json) (env : RecogEnv)
    (ts : List Time) (now : Time) (hvalid : env.imageValid = true)
    (hnone : (call_gemini_vision augment env.remote ts now).result = none) :
    ∃ r, (recognize_food augment env ts now).response = .ok r
      ∧ r.success = true ∧ r.gemini_prediction = none := by
  unfold recognize_food
  rw [if_neg (by simp [hvalid])]
  by_cases h : best_local_confidence (classifierPreds env.food101)
      (classifierPreds env.filipino) < THRESHOLD
  · rw [if_pos h]
    exact ⟨_, rfl, rfl, hnone⟩
  · rw [if_neg h]
    exact ⟨_, rfl, rfl, rfl⟩

/-- C4: the primary provider is rate-gated by the admission check, and on
rate denial, a missing configuration, or any call or parse failure control
passes to the secondary provider, whose verdict becomes the chain result;
when the secondary is also skipped or fails the chain returns null, and the
recognize-food response is still a success body with a null remote field
rather than an error. -/
theorem C4_fallback_chain_terminal (augment : Json → Json) (env : RecogEnv)
    (ts : List Time) (now : Time) (hvalid : env.imageValid = true) :
    ((call_gemini_vision augment env.remote ts now).openaiCalled = true
      ↔ ((check_gemini_rate_limit ts now GEMINI_RPM_LIMIT).2 = false
         ∨ env.remote.geminiConfigured = false
         ∨ env.remote.geminiVisionReply = none))
    ∧ ((call_gemini_vision augment env.remote ts now).openaiCalled = true →
        (call_gemini_vision augment env.remote ts now).result = call_openai_vision env.remote)
    ∧ ((call_gemini_vision augment env.remote ts now).openaiCalled = true →
        call_openai_vision env.remote = none →
        (call_gemini_vision augment env.remote ts now).result = none
        ∧ ∃ r, (recognize_food augment env ts now).response = .ok r
            ∧ r.success = true ∧ r.gemini_prediction = none) := by
  have hiff : (call_gemini_vision augment env.remote ts now).openaiCalled = true
      ↔ ((check_gemini_rate_limit ts now GEMINI_RPM_LIMIT).2 = false
         ∨ env.remote.geminiConfigured = false
         ∨ env.remote.geminiVisionReply = none) := by
    unfold call_gemini_vision
    by_cases hrate : (check_gemini_rate_limit ts now GEMINI_RPM_LIMIT).2 = false
    · rw [if_pos hrate]
      simp [hrate]
    · rw [if_neg hrate]
      by_cases hconf : env.remote.geminiConfigured = false
      · rw [if_pos hconf]
        simp [hrate, hconf]
      · rw [if_neg hconf]
        cases hrep : env.remote.geminiVisionReply with
        | none => simp [hrate, hconf]
        | some j => simp [hrate, hconf]
  have hpass : (call_gemini_vision augment env.remote ts now).openaiCalled = true →
      (call_gemini_vision augment env.remote ts now).result
        = call_openai_vision env.remote := by
    unfold call_gemini_vision
    by_cases hrate : (check_gemini_rate_limit ts now GEMINI_RPM_LIMIT).2 = false
    · rw [if_pos hrate]
      intro _
      rfl
    · rw [if_neg hrate]
      by_cases hconf : env.remote.geminiConfigured = false
      · rw [if_pos hconf]
        intro _
        rfl
      · rw [if_neg hconf]
        cases hrep : env.remote.geminiVisionReply with
        | none =>
          intro _
          rfl
        | some j =>
          intro h
          simp at h
  refine ⟨hiff, hpass, ?_⟩
  intro h hopenai
  have hres : (call_gemini_vision augment env.remote ts now).result = none :=
    (hpass h).trans hopenai
  exact ⟨hres, recognize_food_remote_field augment env ts now hvalid hres⟩

/-- Witness for C4: valid image, every provider down. -/
theorem C4_fallback_chain_terminal_witness :
    envAllLocalFail.imageValid = true
    ∧ (((call_gemini_vision id envAllLocalFail.remote [] 0).openaiCalled = true
      ↔ ((check_gemini_rate_limit [] 0 GEMINI_RPM_LIMIT).2 = false
         ∨ envAllLocalFail.remote.geminiConfigured = false
         ∨ envAllLocalFail.remote.geminiVisionReply = none))
    ∧ ((call_gemini_vision id envAllLocalFail.remote [] 0).openaiCalled = true →
        (call_gemini_vision id envAllLocalFail.remote [] 0).result
          = call_openai_vision envAllLocalFail.remote)
    ∧ ((call_gemini_vision id envAllLocalFail.remote [] 0).openaiCalled = true →
        call_openai_vision envAllLocalFail.remote = none →
        (call_gemini_vision id envAllLocalFail.remote [] 0).result = none
        ∧ ∃ r, (recognize_food id envAllLocalFail [] 0).response = .ok r
            ∧ r.success = true ∧ r.gemini_prediction = none)) :=
  ⟨rfl, C4_fallback_chain_terminal id envAllLocalFail [] 0 rfl⟩

/-! ## C5: remote vision response parsing -/

/-- Gemini vision reply carrying a top-level array and no "predictions" key. -/
def replyNoPredKey : Json :=
  Json.arr [Json.obj [("name", Json.str "Adobo"), ("confidence", Json.num (mkRat 87 100))]]

/-- Remote environment in which Gemini is configured and returns parseable
JSON without a "predictions" key while OpenAI is unconfigured. -/
def envC5 : RemoteEnv :=
  { openaiKey := false, geminiConfigured := true,
    geminiVisionReply := some replyNoPredKey,
    openaiVisionReply := none, geminiOcrReply := none, openaiOcrReply := none }

/-- C5 counterexample: a parsed JSON response that lacks the predictions key
is accepted by the primary provider - the chain does not advance to the
secondary provider and the result is a non-null success value. -/
theorem C5_missing_predictions_accepted_counterexample :
    envC5.geminiVisionReply.map hasPredictionsKey = some false
    ∧ (call_gemini_vision id envC5 [] 0).openaiCalled = false
    ∧ (call_gemini_vision id envC5 [] 0).result.isSome = true :=
  ⟨rfl, rfl, rfl⟩

/-- C5 (amended): a non-JSON reply (a parse failure, modelled as a none
reply) is a provider failure that advances the chain to the secondary
provider; but a successfully parsed JSON reply is always accepted without
advancing, even when it lacks the predictions key: an object with a
list-valued predictions field yields that list, a top-level array yields
itself, any other object yields its first list-valued field, and anything
else yields the empty list. -/
theorem C5_parse_failure_advances_chain (augment : Json → Json) (env : RemoteEnv)
    (ts : List Time) (now : Time)
    (hgrant : (check_gemini_rate_limit ts now GEMINI_RPM_LIMIT).2 = true)
    (hconf : env.geminiConfigured = true) :
    (env.geminiVisionReply = none →
      (call_gemini_vision augment env ts now).openaiCalled = true
      ∧ (call_gemini_vision augment env ts now).result = call_openai_vision env)
    ∧ (∀ j, env.geminiVisionReply = some j →
      (call_gemini_vision augment env ts now).openaiCalled = false
      ∧ (call_gemini_vision augment env ts now).result
          = some (Json.arr ((extractPreds j).map augment)))
    ∧ (∀ ps, extractPreds (Json.arr ps) = ps)
    ∧ (∀ fields, jLookup fields "predictions" = none →
        extractPreds (Json.obj fields) = firstListValue fields) := by
  have hne : ¬ (check_gemini_rate_limit ts now GEMINI_RPM_LIMIT).2 = false := by
    simp [hgrant]
  have hnc : ¬ env.geminiConfigured = false := by simp [hconf]
  refine ⟨?_, ?_, ?_, ?_⟩
  · intro hrep
    unfold call_gemini_vision
    rw [if_neg hne, if_neg hnc, hrep]
    exact ⟨rfl, rfl⟩
  · intro j hrep
    unfold call_gemini_vision
    rw [if_neg hne, if_neg hnc, hrep]
    exact ⟨rfl, rfl⟩
  · intro ps
    rfl
  · intro fields hl
    show (match jLookup fields "predictions" with
          | some (Json.arr ps) => ps
          | _ => firstListValue fields) = firstListValue fields
    rw [hl]

/-- Witness for the amended C5 at a fresh window with Gemini configured. -/
theorem C5_parse_failure_advances_chain_witness :
    (check_gemini_rate_limit [] 0 GEMINI_RPM_LIMIT).2 = true
    ∧ envC5.geminiConfigured = true
    ∧ ((envC5.geminiVisionReply = none →
      (call_gemini_vision id envC5 [] 0).openaiCalled = true
      ∧ (call_gemini_vision id envC5 [] 0).result = call_openai_vision envC5)
    ∧ (∀ j, envC5.geminiVisionReply = some j →
      (call_gemini_vision id envC5 [] 0).openaiCalled = false
      ∧ (call_gemini_vision id envC5 [] 0).result
          = some (Json.arr ((extractPreds j).map id)))
    ∧ (∀ ps, extractPreds (Json.arr ps) = ps)
    ∧ (∀ fields, jLookup fields "predictions" = none →
        extractPreds (Json.obj fields) = firstListValue fields)) :=
  ⟨rfl, rfl, C5_parse_failure_advances_chain id envC5 [] 0 rfl rfl⟩

/-! ## C8 and C10: OCR endpoint outcomes -/

/-- The final OCR stage either succeeds or emits the all-failed 500, the
latter only when the Tesseract stage kept nothing. -/
theorem ocrTessFinish_cases (w : List Time) (tr : Option (String × ℚ)) :
    (∃ r, (ocrTessFinish w tr).response = .ok r)
    ∨ ((ocrTessFinish w tr).response
          = .httpError 500 "All OCR methods failed to extract text" ∧ tr = none) := by
  cases tr with
  | none => exact Or.inr ⟨rfl, rfl⟩
  | some tc => exact Or.inl ⟨_, rfl⟩

/-- The direct OpenAI stage either succeeds or emits the all-failed 500,
the latter only when the Tesseract stage kept nothing. -/
theorem ocrOpenaiStage_cases (renv : RemoteEnv) (w : List Time)
    (tr : Option (String × ℚ)) :
    (∃ r, (ocrOpenaiStage renv w tr).response = .ok r)
    ∨ ((ocrOpenaiStage renv w tr).response
          = .httpError 500 "All OCR methods failed to extract text" ∧ tr = none) := by
  unfold ocrOpenaiStage
  cases call_openai_ocr renv with
  | none => exact ocrTessFinish_cases w tr
  | some o =>
    dsimp only
    by_cases h : o ≠ "" ∧ o ≠ "No text found"
    · rw [if_pos h]
      exact Or.inl ⟨_, rfl⟩
    · rw [if_neg h]
      exact ocrTessFinish_cases w tr

/-- The remote fallback stage either succeeds or emits the all-failed 500,
the latter only when the Tesseract stage kept nothing. -/
theorem ocrFallbackStage_cases (env : OcrEnv) (ts : List Time) (now : Time) :
    (∃ r, (ocrFallbackStage env ts now).response = .ok r)
    ∨ ((ocrFallbackStage env ts now).response
          = .httpError 500 "All OCR methods failed to extract text"
        ∧ tesseractResult env = none) := by
  unfold ocrFallbackStage
  cases (call_gemini_ocr env.remote ts now).result with
  | none => exact ocrOpenaiStage_cases _ _ _
  | some g =>
    dsimp only
    by_cases h : g ≠ "" ∧ g ≠ "No text found"
    · rw [if_pos h]
      exact Or.inl ⟨_, rfl⟩
    · rw [if_neg h]
      exact ocrOpenaiStage_cases _ _ _

/-- OCR environment: readable image, Tesseract raising, no remote provider
configured. -/
def envOcrAllFail : OcrEnv :=
  { imageValid := true, tess := none, remote := remoteAllDown }

/-- OCR environment: readable image whose Tesseract stage keeps confident
text, every remote provider down. -/
def envOcrTessOk : OcrEnv :=
  { imageValid := true, tess := some ("HELLO WORLD", [80, 90]), remote := remoteAllDown }

/-- C8 counterexample: with a structurally valid image, the failure of the
local engine together with both remote fallbacks alone already produces a
non-2xx (500) response. -/
theorem C8_all_ocr_fail_500_counterexample :
    envOcrAllFail.imageValid = true
    ∧ (extract_text_from_image envOcrAllFail [] 0).response
        = ApiResult.httpError 500 "All OCR methods failed to extract text" :=
  ⟨rfl, rfl⟩

/-- When the Tesseract stage kept no text the fallback branch is forced, so
a kept Tesseract result can be extracted from a negative fallback verdict. -/
theorem ocrNeedFallback_eq_false (env : OcrEnv) (h : ocrNeedFallback env = false) :
    ∃ tc, tesseractResult env = some tc := by
  cases htr : tesseractResult env with
  | none =>
    have htrue : ocrNeedFallback env = true := by
      unfold ocrNeedFallback
      rw [htr]
    rw [htrue] at h
    cases h
  | some tc => exact ⟨tc, rfl⟩

/-- A usable OpenAI OCR text makes the direct OpenAI stage succeed. -/
theorem ocrOpenaiStage_ok_of_usable (renv : RemoteEnv) (w : List Time)
    (tr : Option (String × ℚ)) (o : String)
    (ho : call_openai_ocr renv = some o) (h1 : o ≠ "") (h2 : o ≠ "No text found") :
    ∃ r, (ocrOpenaiStage renv w tr).response = .ok r := by
  unfold ocrOpenaiStage
  rw [ho]
  dsimp only
  rw [if_pos ⟨h1, h2⟩]
  exact ⟨_, rfl⟩

/-- A usable Gemini OCR chain text makes the remote fallback stage succeed. -/
theorem ocrFallbackStage_ok_of_gemini (env : OcrEnv) (ts : List Time) (now : Time)
    (g : String) (hg : (call_gemini_ocr env.remote ts now).result = some g)
    (h1 : g ≠ "") (h2 : g ≠ "No text found") :
    ∃ r, (ocrFallbackStage env ts now).response = .ok r := by
  unfold ocrFallbackStage
  rw [hg]
  dsimp only
  rw [if_pos ⟨h1, h2⟩]
  exact ⟨_, rfl⟩

/-- A usable OpenAI OCR text makes the remote fallback stage succeed,
whatever the Gemini chain produced. -/
theorem ocrFallbackStage_ok_of_openai (env : OcrEnv) (ts : List Time) (now : Time)
    (o : String) (ho : call_openai_ocr env.remote = some o)
    (h1 : o ≠ "") (h2 : o ≠ "No text found") :
    ∃ r, (ocrFallbackStage env ts now).response = .ok r := by
  unfold ocrFallbackStage
  cases hg : (call_gemini_ocr env.remote ts now).result with
  | none => exact ocrOpenaiStage_ok_of_usable env.remote _ _ o ho h1 h2
  | some g =>
    dsimp only
    by_cases h : g ≠ "" ∧ g ≠ "No text found"
    · rw [if_pos h]
      exact ⟨_, rfl⟩
    · rw [if_neg h]
      exact ocrOpenaiStage_ok_of_usable env.remote _ _ o ho h1 h2

/-- With no kept Tesseract text and no usable OpenAI text the direct OpenAI
stage emits the all-failed 500. -/
theorem ocrOpenaiStage_500_of_fail (renv : RemoteEnv) (w : List Time)
    (hof : ∀ o, call_openai_ocr renv = some o → o = "" ∨ o = "No text found") :
    (ocrOpenaiStage renv w none).response
      = .httpError 500 "All OCR methods failed to extract text" := by
  unfold ocrOpenaiStage
  cases ho : call_openai_ocr renv with
  | none => rfl
  | some o =>
    dsimp only
    have hno : ¬ (o ≠ "" ∧ o ≠ "No text found") := by
      rcases hof o ho with h | h
      · intro hc
        exact hc.1 h
      · intro hc
        exact hc.2 h
    rw [if_neg hno]
    rfl

/-- With no kept Tesseract text and neither remote fallback producing a
usable text, the remote fallback stage emits the all-failed 500. -/
theorem ocrFallbackStage_500_of_fail (env : OcrEnv) (ts : List Time) (now : Time)
    (htr : tesseractResult env = none)
    (hgf : ∀ g, (call_gemini_ocr env.remote ts now).result = some g →
      g = "" ∨ g = "No text found")
    (hof : ∀ o, call_openai_ocr env.remote = some o → o = "" ∨ o = "No text found") :
    (ocrFallbackStage env ts now).response
      = .httpError 500 "All OCR methods failed to extract text" := by
  unfold ocrFallbackStage
  rw [htr]
  cases hgr : (call_gemini_ocr env.remote ts now).result with
  | none => exact ocrOpenaiStage_500_of_fail env.remote _ hof
  | some g =>
    dsimp only
    have hng : ¬ (g ≠ "" ∧ g ≠ "No text found") := by
      rcases hgf g hgr with h | h
      · intro hc
        exact hc.1 h
      · intro hc
        exact hc.2 h
    rw [if_neg hng]
    exact ocrOpenaiStage_500_of_fail env.remote _ hof

/-- C8 (amended): for a structurally valid image the OCR endpoint returns
HTTP success whenever the local engine kept usable text or either remote
fallback produced a usable (truthy, non-sentinel) text, whatever the other
components do; and when the local engine kept nothing and neither remote
fallback produced usable text the endpoint emits the all-failed 500, which
is also the only non-2xx outcome for a valid image. -/
theorem C8_ocr_success_unless_all_fail (env : OcrEnv) (ts : List Time) (now : Time)
    (hvalid : env.imageValid = true) :
    (∀ tc, tesseractResult env = some tc →
      ∃ r, (extract_text_from_image env ts now).response = .ok r)
    ∧ (∀ g, (call_gemini_ocr env.remote ts now).result = some g → g ≠ "" →
        g ≠ "No text found" →
        ∃ r, (extract_text_from_image env ts now).response = .ok r)
    ∧ (∀ o, call_openai_ocr env.remote = some o → o ≠ "" → o ≠ "No text found" →
        ∃ r, (extract_text_from_image env ts now).response = .ok r)
    ∧ (tesseractResult env = none →
        (∀ g, (call_gemini_ocr env.remote ts now).result = some g →
          g = "" ∨ g = "No text found") →
        (∀ o, call_openai_ocr env.remote = some o → o = "" ∨ o = "No text found") →
        (extract_text_from_image env ts now).response
          = .httpError 500 "All OCR methods failed to extract text")
    ∧ (∀ c d, (extract_text_from_image env ts now).response = .httpError c d →
      c = 500 ∧ d = "All OCR methods failed to extract text"
      ∧ tesseractResult env = none) := by
  have hext : extract_text_from_image env ts now
      = if ocrNeedFallback env then ocrFallbackStage env ts now
        else ocrTessFinish ts (tesseractResult env) := by
    unfold extract_text_from_image
    rw [if_neg (by simp [hvalid])]
  refine ⟨?_, ?_, ?_, ?_, ?_⟩
  · intro tc htc
    rw [hext]
    by_cases hnf : ocrNeedFallback env = true
    · rw [if_pos hnf]
      rcases ocrFallbackStage_cases env ts now with ⟨r, hr⟩ | ⟨_, hnone⟩
      · exact ⟨r, hr⟩
      · rw [htc] at hnone
        simp at hnone
    · rw [if_neg hnf, htc]
      exact ⟨_, rfl⟩
  · intro g hg h1 h2
    rw [hext]
    by_cases hnf : ocrNeedFallback env = true
    · rw [if_pos hnf]
      exact ocrFallbackStage_ok_of_gemini env ts now g hg h1 h2
    · rw [if_neg hnf]
      have hnf2 : ocrNeedFallback env = false := by
        cases hb : ocrNeedFallback env
        · rfl
        · exact absurd hb hnf
      obtain ⟨tc, htc⟩ := ocrNeedFallback_eq_false env hnf2
      rw [htc]
      exact ⟨_, rfl⟩
  · intro o ho h1 h2
    rw [hext]
    by_cases hnf : ocrNeedFallback env = true
    · rw [if_pos hnf]
      exact ocrFallbackStage_ok_of_openai env ts now o ho h1 h2
    · rw [if_neg hnf]
      have hnf2 : ocrNeedFallback env = false := by
        cases hb : ocrNeedFallback env
        · rfl
        · exact absurd hb hnf
      obtain ⟨tc, htc⟩ := ocrNeedFallback_eq_false env hnf2
      rw [htc]
      exact ⟨_, rfl⟩
  · intro htr hgf hof
    rw [hext]
    have hnf : ocrNeedFallback env = true := by
      unfold ocrNeedFallback
      rw [htr]
    rw [if_pos hnf]
    exact ocrFallbackStage_500_of_fail env ts now htr hgf hof
  · intro c d hcd
    rw [hext] at hcd
    by_cases hnf : ocrNeedFallback env = true
    · rw [if_pos hnf] at hcd
      rcases ocrFallbackStage_cases env ts now with ⟨r, hr⟩ | ⟨herr, hnone⟩
      · rw [hr] at hcd
        cases hcd
      · rw [herr] at hcd
        injection hcd with h1 h2
        exact ⟨h1.symm, h2.symm, hnone⟩
    · rw [if_neg hnf] at hcd
      cases htr : tesseractResult env with
      | none =>
        have : ocrNeedFallback env = true := by
          unfold ocrNeedFallback
          rw [htr]
        exact absurd this hnf
      | some tc =>
        rw [htr] at hcd
        cases hcd

/-- Witness for the amended C8: the local engine keeps confident text with
every remote provider down, and the endpoint still answers 2xx. -/
theorem C8_ocr_success_unless_all_fail_witness :
    envOcrTessOk.imageValid = true
    ∧ ((∀ tc, tesseractResult envOcrTessOk = some tc →
      ∃ r, (extract_text_from_image envOcrTessOk [] 0).response = .ok r)
    ∧ (∀ g, (call_gemini_ocr envOcrTessOk.remote [] 0).result = some g → g ≠ "" →
        g ≠ "No text found" →
        ∃ r, (extract_text_from_image envOcrTessOk [] 0).response = .ok r)
    ∧ (∀ o, call_openai_ocr envOcrTessOk.remote = some o → o ≠ "" →
        o ≠ "No text found" →
        ∃ r, (extract_text_from_image envOcrTessOk [] 0).response = .ok r)
    ∧ (tesseractResult envOcrTessOk = none →
        (∀ g, (call_gemini_ocr envOcrTessOk.remote [] 0).result = some g →
          g = "" ∨ g = "No text found") →
        (∀ o, call_openai_ocr envOcrTessOk.remote = some o →
          o = "" ∨ o = "No text found") →
        (extract_text_from_image envOcrTessOk [] 0).response
          = .httpError 500 "All OCR methods failed to extract text")
    ∧ (∀ c d, (extract_text_from_image envOcrTessOk [] 0).response = .httpError c d →
      c = 500 ∧ d = "All OCR methods failed to extract text"
      ∧ tesseractResult envOcrTessOk = none)) :=
  ⟨rfl, C8_ocr_success_unless_all_fail envOcrTessOk [] 0 rfl⟩

/-- Every success body of the final OCR stage is Tesseract-sourced and
carries the measured Tesseract confidence. -/
theorem ocrTessFinish_ok (w : List Time) (tr : Option (String × ℚ)) :
    ∀ r, (ocrTessFinish w tr).response = .ok r →
      r.source = "tesseract" ∧ ∃ t, tr = some (t, r.confidence) := by
  cases tr with
  | none =>
    intro r hr
    cases hr
  | some tc =>
    intro r hr
    injection hr with h
    subst h
    exact ⟨rfl, tc.1, rfl⟩

/-- Every success body of the direct OpenAI stage is either OpenAI-sourced
with constant confidence 95 or Tesseract-sourced with the measured
confidence. -/
theorem ocrOpenaiStage_ok (renv : RemoteEnv) (w : List Time)
    (tr : Option (String × ℚ)) :
    ∀ r, (ocrOpenaiStage renv w tr).response = .ok r →
      (r.source = "openai" ∧ r.confidence = 95)
      ∨ (r.source = "tesseract" ∧ ∃ t, tr = some (t, r.confidence)) := by
  unfold ocrOpenaiStage
  cases call_openai_ocr renv with
  | none =>
    intro r hr
    exact Or.inr (ocrTessFinish_ok w tr r hr)
  | some o =>
    dsimp only
    by_cases h : o ≠ "" ∧ o ≠ "No text found"
    · rw [if_pos h]
      intro r hr
      injection hr with h2
      subst h2
      exact Or.inl ⟨rfl, rfl⟩
    · rw [if_neg h]
      intro r hr
      exact Or.inr (ocrTessFinish_ok w tr r hr)

/-- Every success body of the remote fallback stage is remote-sourced with
constant confidence 95 or Tesseract-sourced with the measured confidence. -/
theorem ocrFallbackStage_ok (env : OcrEnv) (ts : List Time) (now : Time) :
    ∀ r, (ocrFallbackStage env ts now).response = .ok r →
      (r.source = "gemini" ∧ r.confidence = 95)
      ∨ (r.source = "openai" ∧ r.confidence = 95)
      ∨ (r.source = "tesseract" ∧ ∃ t, tesseractResult env = some (t, r.confidence)) := by
  unfold ocrFallbackStage
  cases (call_gemini_ocr env.remote ts now).result with
  | none =>
    intro r hr
    rcases ocrOpenaiStage_ok _ _ _ r hr with h | h
    · exact Or.inr (Or.inl h)
    · exact Or.inr (Or.inr h)
  | some g =>
    dsimp only
    by_cases h : g ≠ "" ∧ g ≠ "No text found"
    · rw [if_pos h]
      intro r hr
      injection hr with h2
      subst h2
      exact Or.inl ⟨rfl, rfl⟩
    · rw [if_neg h]
      intro r hr
      rcases ocrOpenaiStage_ok _ _ _ r hr with h' | h'
      · exact Or.inr (Or.inl h')
      · exact Or.inr (Or.inr h')

/-- OCR environment answered by the Gemini fallback. -/
def envOcrGemini : OcrEnv :=
  { imageValid := true, tess := none,
    remote := { openaiKey := false, geminiConfigured := true,
                geminiVisionReply := none, openaiVisionReply := none,
                geminiOcrReply := some "Eggs Milk Bread", openaiOcrReply := none } }

/-- C10: every OCR response answered by a remote fallback provider carries
the constant confidence 95.0, independent of the image and of the extracted
text, while a response answered by the local engine carries the measured
Tesseract confidence. -/
theorem C10_remote_ocr_confidence_constant (env : OcrEnv) (ts : List Time) (now : Time) :
    ∀ r, (extract_text_from_image env ts now).response = .ok r →
      ((r.source = "gemini" ∨ r.source = "openai") → r.confidence = 95)
      ∧ (r.source = "tesseract" →
          ∃ t, tesseractResult env = some (t, r.confidence)) := by
  intro r hr
  have hclass : (r.source = "gemini" ∧ r.confidence = 95)
      ∨ (r.source = "openai" ∧ r.confidence = 95)
      ∨ (r.source = "tesseract" ∧ ∃ t, tesseractResult env = some (t, r.confidence)) := by
    unfold extract_text_from_image at hr
    by_cases hv : env.imageValid = false
    · rw [if_pos hv] at hr
      cases hr
    · rw [if_neg hv] at hr
      by_cases hnf : ocrNeedFallback env = true
      · rw [if_pos hnf] at hr
        exact ocrFallbackStage_ok env ts now r hr
      · rw [if_neg hnf] at hr
        rcases ocrTessFinish_ok ts (tesseractResult env) r hr with ⟨hs, he⟩
        exact Or.inr (Or.inr ⟨hs, he⟩)
  constructor
  · intro hor
    rcases hclass with ⟨hs, hc⟩ | ⟨hs, hc⟩ | ⟨hs, _⟩
    · exact hc
    · exact hc
    · rcases hor with h | h
      · rw [hs] at h
        exact absurd h (by decide)
      · rw [hs] at h
        exact absurd h (by decide)
  · intro hts
    rcases hclass with ⟨hs, _⟩ | ⟨hs, _⟩ | ⟨_, he⟩
    · rw [hs] at hts
      exact absurd hts (by decide)
    · rw [hs] at hts
      exact absurd hts (by decide)
    · exact he

/-- The concrete response body the Gemini OCR fallback produces for
envOcrGemini. -/
def ocrGeminiResponse : OcrResponse :=
  { success := true, text := pyStrip "Eggs Milk Bread", confidence := 95,
    source := "gemini" }

/-- Witness for C10 on an environment answered by the Gemini fallback. -/
theorem C10_remote_ocr_confidence_constant_witness :
    ((ocrGeminiResponse.source = "gemini" ∨ ocrGeminiResponse.source = "openai") →
        ocrGeminiResponse.confidence = 95)
    ∧ (ocrGeminiResponse.source = "tesseract" →
        ∃ t, tesseractResult envOcrGemini = some (t, ocrGeminiResponse.confidence)) :=
  C10_remote_ocr_confidence_constant envOcrGemini [] 0 ocrGeminiResponse rfl

end REcipe
